import Mathlib

/-!
Verification of the `tmx_loader` core (`src/tmx_loader/__init__.py`): a
shallow embedding in Lean 4 of the loader that converts a parsed Tiled map
document into a Panda3D scene graph, together with proofs of the spec's
claims about it.

Modelling conventions:
* Python integers are `Nat`/`Int`; pixel and scale arithmetic (Python
  floats that the spec treats as exact) is modelled with `ℚ`.
* Panda3D's `LMatrix4` is a 4×4 rational matrix in Panda's row-vector
  convention (`v' = v * M`, translation in the last row).  The source
  relies on `p3d.LMatrix4()` starting as the identity, and the spec
  describes the no-flag transform as the identity, so the default
  constructor is modelled as `Mat4.ident`.
* Exceptions are modelled with `Except LoadError`; each `LoadError`
  constructor names the Python exception it stands for.
* Scene-graph construction (`NodePath`, `attach_new_node`, `reparent_to`,
  `set_pos`/`set_scale`/`set_r`) is modelled as building an immutable tree
  of `PNode`s: a child node's world transform is its parent chain's local
  transforms composed with its own, which is the scene-graph semantics the
  spec's "local transform (position/rotation/scale)" contract describes.
* External texture files are modelled by an `ImageEnv` giving each image
  path its pixel size and channel count (an injected collaborator, as the
  spec's design notes prescribe).
-/

namespace TmxLoader

/-- `HORIZONTAL_FLIP_FLAG` from the source. -/
def HORIZONTAL_FLIP_FLAG : Nat := 0x80000000

/-- `VERTICAL_FLIP_FLAG` from the source. -/
def VERTICAL_FLIP_FLAG : Nat := 0x40000000

/-- `DIAGONAL_FLIP_FLAG` from the source. -/
def DIAGONAL_FLIP_FLAG : Nat := 0x20000000

/-- `HEXAGONAL_ROTATION_FLAG` from the source. -/
def HEXAGONAL_ROTATION_FLAG : Nat := 0x10000000

/-- The combined mask `HORIZONTAL_FLIP_FLAG | DIAGONAL_FLIP_FLAG |
VERTICAL_FLIP_FLAG | HEXAGONAL_ROTATION_FLAG` that the source applies in
`extract_tile_transform` and in `MapLoader.find_source`. -/
def FLAG_MASK : Nat :=
  HORIZONTAL_FLIP_FLAG ||| DIAGONAL_FLIP_FLAG |||
    VERTICAL_FLIP_FLAG ||| HEXAGONAL_ROTATION_FLAG

/-- Python's `gid & ~(H | D | V | HEX)` on a nonnegative `gid`: clear the
four flag bits, keeping every other bit.  For `gid ≥ 0` this equals
removing from `gid` the bits it shares with the mask, written here with
kernel-reducible operations as `gid ^^^ (gid &&& FLAG_MASK)`. -/
def clear_flags (gid : Nat) : Nat := gid ^^^ (gid &&& FLAG_MASK)

/-- The errors the loader can raise.  Each constructor records which
Python exception the source raises at the corresponding site
(`UnsupportedError` is a subclass of `ValueError`). -/
inductive LoadError where
  /-- `UnsupportedError` -/
  | unsupported (msg : String)
  /-- `ValueError` raised by `MapLoader.find_source` -/
  | lookupFailure
  /-- `ValueError` raised by `get_tile_uv_transform` for missing image
  dimensions -/
  | missingImageDims
  /-- `KeyError` from `self.tiled_map.tilesets[1]` -/
  | keyError (key : Nat)
  /-- `AssertionError` from `assert tileset.image is not None` -/
  | assertionFailed
  /-- `ZeroDivisionError` (the source divides by image dimensions, column
  count and map tile size without guarding them) -/
  | zeroDivision
deriving DecidableEq, Repr

/-- A 3-component point/vector (`LPoint3`), with exact coordinates. -/
structure Vec3 where
  x : ℚ
  y : ℚ
  z : ℚ
deriving DecidableEq, Repr

/-- Panda3D `LMatrix4`: 4×4 matrix in row-vector convention
(`v' = v * M`; the translation lives in row 3). -/
structure Mat4 where
  m00 : ℚ
  m01 : ℚ
  m02 : ℚ
  m03 : ℚ
  m10 : ℚ
  m11 : ℚ
  m12 : ℚ
  m13 : ℚ
  m20 : ℚ
  m21 : ℚ
  m22 : ℚ
  m23 : ℚ
  m30 : ℚ
  m31 : ℚ
  m32 : ℚ
  m33 : ℚ
deriving DecidableEq, Repr

/-- The identity matrix; `p3d.LMatrix4()` as the source uses it. -/
def Mat4.ident : Mat4 where
  m00 := 1
  m01 := 0
  m02 := 0
  m03 := 0
  m10 := 0
  m11 := 1
  m12 := 0
  m13 := 0
  m20 := 0
  m21 := 0
  m22 := 1
  m23 := 0
  m30 := 0
  m31 := 0
  m32 := 0
  m33 := 1

/-- Matrix product (Panda3D `LMatrix4.__mul__`). -/
def Mat4.mul (a b : Mat4) : Mat4 where
  m00 := a.m00 * b.m00 + a.m01 * b.m10 + a.m02 * b.m20 + a.m03 * b.m30
  m01 := a.m00 * b.m01 + a.m01 * b.m11 + a.m02 * b.m21 + a.m03 * b.m31
  m02 := a.m00 * b.m02 + a.m01 * b.m12 + a.m02 * b.m22 + a.m03 * b.m32
  m03 := a.m00 * b.m03 + a.m01 * b.m13 + a.m02 * b.m23 + a.m03 * b.m33
  m10 := a.m10 * b.m00 + a.m11 * b.m10 + a.m12 * b.m20 + a.m13 * b.m30
  m11 := a.m10 * b.m01 + a.m11 * b.m11 + a.m12 * b.m21 + a.m13 * b.m31
  m12 := a.m10 * b.m02 + a.m11 * b.m12 + a.m12 * b.m22 + a.m13 * b.m32
  m13 := a.m10 * b.m03 + a.m11 * b.m13 + a.m12 * b.m23 + a.m13 * b.m33
  m20 := a.m20 * b.m00 + a.m21 * b.m10 + a.m22 * b.m20 + a.m23 * b.m30
  m21 := a.m20 * b.m01 + a.m21 * b.m11 + a.m22 * b.m21 + a.m23 * b.m31
  m22 := a.m20 * b.m02 + a.m21 * b.m12 + a.m22 * b.m22 + a.m23 * b.m32
  m23 := a.m20 * b.m03 + a.m21 * b.m13 + a.m22 * b.m23 + a.m23 * b.m33
  m30 := a.m30 * b.m00 + a.m31 * b.m10 + a.m32 * b.m20 + a.m33 * b.m30
  m31 := a.m30 * b.m01 + a.m31 * b.m11 + a.m32 * b.m21 + a.m33 * b.m31
  m32 := a.m30 * b.m02 + a.m31 * b.m12 + a.m32 * b.m22 + a.m33 * b.m32
  m33 := a.m30 * b.m03 + a.m31 * b.m13 + a.m32 * b.m23 + a.m33 * b.m33

instance : Mul Mat4 := ⟨Mat4.mul⟩

/-- `LMatrix4.translate_mat(x, y, z)`: identity with the translation in
row 3 (row-vector convention). -/
def Mat4.translate_mat (x y z : ℚ) : Mat4 :=
  { Mat4.ident with m30 := x, m31 := y, m32 := z }

/-- `LMatrix4.scale_mat(x, y, z)`. -/
def Mat4.scale_mat (x y z : ℚ) : Mat4 :=
  { Mat4.ident with m00 := x, m11 := y, m22 := z }

/-- `LMatrix4.rotate_mat(180, (1, 0, -1))`: a 180° rotation about the
axis `(1, 0, -1)/√2`.  For a half turn about a unit axis `u` the rotation
matrix is `2·uuᵀ - I` (independent of handedness), which here has the
integer entries below. -/
def Mat4.rotate180_diag_axis : Mat4 :=
  { Mat4.ident with m00 := 0, m02 := -1, m11 := -1, m20 := -1, m22 := 0 }

/-- `LMatrix4.rotate_mat(180, (0, 0, 1))` = `2·uuᵀ - I` for `u = (0,0,1)`. -/
def Mat4.rotate180_z_axis : Mat4 :=
  { Mat4.ident with m00 := -1, m11 := -1 }

/-- `LMatrix4.rotate_mat(180, (1, 0, 0))` = `2·uuᵀ - I` for `u = (1,0,0)`. -/
def Mat4.rotate180_x_axis : Mat4 :=
  { Mat4.ident with m11 := -1, m22 := -1 }

/-- `LMatrix4.xform_point(p)`: apply the matrix to a point (w = 1) in the
row-vector convention. -/
def Mat4.xform_point (m : Mat4) (p : Vec3) : Vec3 where
  x := p.x * m.m00 + p.y * m.m10 + p.z * m.m20 + m.m30
  y := p.x * m.m01 + p.y * m.m11 + p.z * m.m21 + m.m31
  z := p.x * m.m02 + p.y * m.m12 + p.z * m.m22 + m.m32

/-- `extract_tile_transform(gid)` from the source: tests the diagonal,
horizontal and vertical flip flags in that order, each contributing a
rotate+translate pair (`transform *= rot; transform *= trans`), then
clears all four flag bits from the gid. -/
def extract_tile_transform (gid : Nat) : Nat × Mat4 :=
  let transform := Mat4.ident
  let transform :=
    if gid &&& DIAGONAL_FLIP_FLAG ≠ 0 then
      transform * Mat4.rotate180_diag_axis * Mat4.translate_mat 1 0 (-1)
    else transform
  let transform :=
    if gid &&& HORIZONTAL_FLIP_FLAG ≠ 0 then
      transform * Mat4.rotate180_z_axis * Mat4.translate_mat 1 0 0
    else transform
  let transform :=
    if gid &&& VERTICAL_FLIP_FLAG ≠ 0 then
      transform * Mat4.rotate180_x_axis * Mat4.translate_mat 0 0 1
    else transform
  (clear_flags gid, transform)

/-! ## Parsed map document (the `pytiled_parser` data the loader reads) -/

/-- The kind of a `pytiled_parser.tiled_object.TiledObject`: the source
distinguishes `Tile` (has a gid), `Rectangle` (used as a collider) and
every other shape (unsupported as a collider, placed as an empty node in
object layers). -/
inductive ObjKind where
  | tileObj (gid : Nat)
  | rectangle
  | otherShape
deriving DecidableEq, Repr

/-- A `TiledObject`: name, pixel coordinates, rotation, size and kind. -/
structure TiledObject where
  name : String
  coordinates : ℚ × ℚ
  rotation : ℚ
  size : ℚ × ℚ
  kind : ObjKind
deriving DecidableEq, Repr

/-- A per-tile entry of a tileset (`pytiled_parser` tile).  `objects` is
the tile's optional object-layer metadata; `some objs` stands for an
`ObjectLayer` whose `tiled_objects` is `objs` (in `pytiled_parser` the
field is `Optional[ObjectLayer]`, so the source's
`isinstance(tile.objects, ObjectLayer)` test is exactly the `some` case). -/
structure TsTile where
  id : Nat
  objects : Option (List TiledObject)
deriving DecidableEq, Repr

/-- A `pytiled_parser.Tileset`.  `tiles` models the optional
`tileset.tiles` mapping as its list of values in iteration order. -/
structure Tileset where
  name : String
  firstgid : Nat
  tile_count : Nat
  tile_width : Nat
  tile_height : Nat
  margin : Nat
  spacing : Nat
  columns : Nat
  image : Option String
  image_width : Option Nat
  image_height : Option Nat
  tiles : Option (List TsTile)
deriving DecidableEq, Repr

/-- A parsed layer.  `tile` carries the optional gid grid (`layer.data`),
`object` the placed objects, `image` the image path and opacity, `group`
the optional nested layers; `other` stands for any further layer type the
source rejects with `UnsupportedError`. -/
inductive Layer where
  | tile (name : String) (data : Option (List (List Nat)))
  | object (name : String) (tiled_objects : List TiledObject)
  | image (name : String) (image : String) (opacity : ℚ)
  | group (name : String) (layers : Option (List Layer))
  | other (name : String)

/-- A parsed `pytiled_parser.TiledMap`.

Modelled from the spec: the external parser's `tilesets` attribute is "a
tileset-id-keyed mapping"; per the spec's open-question note, the entry at
key 1 is the map's *second declared* tileset (the keys enumerate the
tilesets in declaration order).  It is modelled as an association list of
`(key, tileset)` pairs in that order, so `.map Prod.snd` is `.values()`.
`map_file_parent`/`map_file_stem` model `map_file.parent`/`map_file.stem`. -/
structure TiledMap where
  map_file_parent : String
  map_file_stem : String
  orientation : String
  infinite : Bool
  tile_size : Nat × Nat
  tilesets : List (Nat × Tileset)
  layers : List Layer

/-- Python `self.tiled_map.tilesets[k]`: dictionary lookup by key. -/
def TiledMap.tileset_at (m : TiledMap) (k : Nat) : Option Tileset :=
  (m.tilesets.find? fun e => e.1 = k).map Prod.snd

/-! ## External texture collaborator -/

/-- The pixel data the engine reads from an image file: its size and its
number of channels.  This is the injected stand-in for the file system the
textures are read from. -/
structure ImageEnv where
  sizeOf' : String → Nat × Nat
  components : String → Nat

/-- A Panda3D `Texture` as far as the loader observes it: which file it
was read from, its original pixel size, its channel count, and the uniform
alpha value written by `modify_opacity` (if any). -/
structure Texture where
  source : String
  x_size : Nat
  y_size : Nat
  num_components : Nat
  alpha_fill : Option ℚ
deriving DecidableEq, Repr

/-- `load_tileset_image(tileset)`: asserts the tileset has an image and
reads it (nearest-filtered, no auto scale — sampler settings are not
observable by any claim and are omitted). -/
def load_tileset_image (env : ImageEnv) (tileset : Tileset) :
    Except LoadError Texture :=
  match tileset.image with
  | none => .error .assertionFailed
  | some img =>
      .ok { source := img, x_size := (env.sizeOf' img).1,
            y_size := (env.sizeOf' img).2,
            num_components := env.components img, alpha_fill := none }

/-- A `RenderState`: the bound texture plus whether alpha blending is on. -/
structure RenderState where
  texture : Texture
  alpha_blend : Bool
deriving DecidableEq, Repr

/-- `make_render_state(texture)`: alpha blending exactly when the texture
has more than 3 components. -/
def make_render_state (texture : Texture) : RenderState :=
  { texture := texture, alpha_blend := texture.num_components > 3 }

/-- `modify_opacity(texture, opacity)`: produces a *new* texture whose
alpha channel is uniformly `opacity` (the original is untouched; the
rebuilt image always carries an alpha channel). -/
def modify_opacity (texture : Texture) (opacity : ℚ) : Texture :=
  { texture with alpha_fill := some opacity, num_components := 4 }

/-! ## Tile batch builder -/

/-- One vertex row of the batch: position and the stored `(u, v)` pair
(the source stores `texcoord.x, texcoord.z`). -/
structure VertexRow where
  vertex : Vec3
  u : ℚ
  v : ℚ
deriving DecidableEq, Repr

/-- The fixed corner order of the unit quad appended per tile:
`((0,0), (0,1), (1,1), (1,1), (1,0), (0,0))`. -/
def quad_points : List (ℚ × ℚ) := [(0, 0), (0, 1), (1, 1), (1, 1), (1, 0), (0, 0)]

/-- `TileGeomBuilder`: the growable vertex/texcoord buffer. -/
structure TileGeomBuilder where
  vertex_data : List VertexRow
deriving DecidableEq, Repr

/-- `TileGeomBuilder.add_tile`: append the unit quad's 6 corners, each
transformed once by the shape transform and once by the uv transform. -/
def TileGeomBuilder.add_tile (b : TileGeomBuilder) (shape_xform uv_xform : Mat4) :
    TileGeomBuilder :=
  { vertex_data :=
      b.vertex_data ++ quad_points.map fun p =>
        let vertex := shape_xform.xform_point ⟨p.1, 0, p.2⟩
        let texcoord := uv_xform.xform_point ⟨p.1, 0, p.2⟩
        { vertex := vertex, u := texcoord.x, v := texcoord.z } }

/-- The finalized `Geom`: one triangle-list primitive covering every
vertex row in order. -/
structure Geom where
  vertex_data : List VertexRow
deriving DecidableEq, Repr

/-- `TileGeomBuilder.generate_geom`. -/
def TileGeomBuilder.generate_geom (b : TileGeomBuilder) : Geom :=
  { vertex_data := b.vertex_data }

/-! ## Collider registry -/

/-- A `CollisionBox` given by its two opposite corners. -/
structure CollisionSolid where
  corner_min : Vec3
  corner_max : Vec3
deriving DecidableEq, Repr

/-- `load_collider(tiled_object)`: only rectangles are supported; a
rectangle of size `(width, height)` becomes
`CollisionBox((0, -16, -height), (width, 16, 0))`. -/
def load_collider (tiled_object : TiledObject) : Except LoadError CollisionSolid :=
  match tiled_object.kind with
  | .rectangle =>
      .ok { corner_min := ⟨0, -16, -tiled_object.size.2⟩,
            corner_max := ⟨tiled_object.size.1, 16, 0⟩ }
  | _ => .error (.unsupported "Non-rectangular colliders not yet supported")

/-- A `CollisionNode`: its name and its solids in insertion order. -/
structure CollisionNode where
  name : String
  solids : List CollisionSolid
deriving DecidableEq, Repr

/-- The collider registry (`ColliderHandler.colliders`): a Python dict
from gid to collision node, modelled as a lookup function. -/
def ColliderMap := Nat → Option CollisionNode

/-- The empty registry (`attrs.Factory(dict)`). -/
def ColliderMap.empty : ColliderMap := fun _ => none

/-- Dictionary store `self.colliders[gid] = node`. -/
def ColliderMap.store (m : ColliderMap) (gid : Nat) (node : CollisionNode) :
    ColliderMap :=
  fun g => if g = gid then some node else m g

/-- `ColliderHandler.get_collider(gid)`: pure dictionary lookup. -/
def ColliderMap.get_collider (m : ColliderMap) (gid : Nat) : Option CollisionNode :=
  m gid

/-- The body of `ColliderHandler.load_colliders` for one tile: skip tiles
without object-layer metadata, otherwise build one collision node from
all contained shapes (failing on a non-rectangle) and register it under
`firstgid + tile.id`. -/
def load_colliders_step (firstgid : Nat) (m : ColliderMap) (tile : TsTile) :
    Except LoadError ColliderMap :=
  match tile.objects with
  | none => .ok m
  | some objs => do
      let solids ← objs.mapM load_collider
      .ok (m.store (firstgid + tile.id) ⟨"collision_node", solids⟩)

/-- `ColliderHandler.load_colliders(tileset)`. -/
def ColliderMap.load_colliders (m : ColliderMap) (tileset : Tileset) :
    Except LoadError ColliderMap :=
  match tileset.tiles with
  | none => .ok m
  | some tiles => tiles.foldlM (load_colliders_step tileset.firstgid) m

/-! ## Atlas mapper -/

/-- `divmod(tile_id, tileset.columns)` from `get_tile_uv_transform`:
Python floor division and modulus, returning `(j, i)` = (row, column). -/
def tile_row_col (tileset : Tileset) (tile_id : Int) : Int × Int :=
  (tile_id.fdiv tileset.columns, tile_id.fmod tileset.columns)

/-- The pixel origin `(x_start, y_start)` of a tile in its atlas:
column/row times (tile size + spacing). -/
def tile_pixel_origin (tileset : Tileset) (tile_id : Int) : Int × Int :=
  let ji := tile_row_col tileset tile_id
  (ji.2 * ((tileset.tile_width : Int) + tileset.spacing),
    ji.1 * ((tileset.tile_height : Int) + tileset.spacing))

/-- `get_tile_uv_transform(tileset, tile_id)`: fails when the atlas image
dimensions are unknown; otherwise composes tile scale, top-left flip
shift, per-tile translation and pixel→UV normalization.  The source
divides by the image dimensions and the column count unguarded, so a zero
value raises `ZeroDivisionError`; that case is made explicit here. -/
def get_tile_uv_transform (tileset : Tileset) (tile_id : Int) :
    Except LoadError Mat4 :=
  let tile_scale := Mat4.scale_mat tileset.tile_width 1 tileset.tile_height
  match tileset.image_width, tileset.image_height with
  | some image_width, some image_height =>
      if image_width = 0 ∨ image_height = 0 ∨ tileset.columns = 0 then
        .error .zeroDivision
      else
        let shift := Mat4.translate_mat tileset.margin 0
          ((image_height : ℚ) - tileset.margin - tileset.tile_height)
        let image_scale :=
          Mat4.scale_mat (1 / (image_width : ℚ)) 1 (1 / (image_height : ℚ))
        let xy := tile_pixel_origin tileset tile_id
        let translation := Mat4.translate_mat xy.1 0 (-(xy.2 : ℚ))
        .ok (tile_scale * shift * translation * image_scale)
  | _, _ => .error .missingImageDims

/-! ## Scene graph -/

/-- What a scene node holds besides its transform and children. -/
inductive NodeCore where
  /-- a plain `PandaNode`/`NodePath(name)` -/
  | plain
  /-- a `GeomNode` with its geoms and their render states -/
  | geomNode (geoms : List (Geom × RenderState))
  /-- an attached `CollisionNode` -/
  | collision (node : CollisionNode)
  /-- a `CardMaker`-generated card with its frame `(left, right, bottom, top)` -/
  | card (frame : ℚ × ℚ × ℚ × ℚ)

/-- A scene-graph node: name, local position, local scale, roll angle
(`set_r`), optional render state (`set_state`), payload and children in
attachment order.  A child inherits the composed transform of its parent
chain. -/
inductive PNode where
  | node (name : String) (pos : Vec3) (scale : Vec3) (r : ℚ)
      (state : Option RenderState) (core : NodeCore) (children : List PNode)

/-- A freshly created `NodePath(name)`: identity transform, no payload. -/
def PNode.fresh (name : String) : PNode :=
  .node name ⟨0, 0, 0⟩ ⟨1, 1, 1⟩ 0 none .plain []

def PNode.name : PNode → String
  | .node n _ _ _ _ _ _ => n

def PNode.pos : PNode → Vec3
  | .node _ p _ _ _ _ _ => p

def PNode.scale : PNode → Vec3
  | .node _ _ s _ _ _ _ => s

def PNode.roll : PNode → ℚ
  | .node _ _ _ r _ _ _ => r

def PNode.state : PNode → Option RenderState
  | .node _ _ _ _ st _ _ => st

def PNode.core : PNode → NodeCore
  | .node _ _ _ _ _ c _ => c

def PNode.children : PNode → List PNode
  | .node _ _ _ _ _ _ ch => ch

/-- `node_path.set_pos(...)`. -/
def PNode.set_pos : PNode → Vec3 → PNode
  | .node n _ s r st c ch, p => .node n p s r st c ch

/-- `node_path.set_scale(...)`. -/
def PNode.set_scale : PNode → Vec3 → PNode
  | .node n p _ r st c ch, s => .node n p s r st c ch

/-- `node_path.set_r(...)`. -/
def PNode.set_r : PNode → ℚ → PNode
  | .node n p s _ st c ch, r => .node n p s r st c ch

/-- `node_path.set_state(...)`. -/
def PNode.set_state : PNode → RenderState → PNode
  | .node n p s r _ c ch, st => .node n p s r (some st) c ch

/-- `parent.attach_new_node(child)` / `child.reparent_to(parent)`: append
the child under the parent. -/
def PNode.add_child : PNode → PNode → PNode
  | .node n p s r st c ch, child => .node n p s r st c (ch ++ [child])

/-- Wrap an attached `CollisionNode` as a scene node (identity local
transform). -/
def collision_pnode (c : CollisionNode) : PNode :=
  .node c.name ⟨0, 0, 0⟩ ⟨1, 1, 1⟩ 0 none (.collision c) []

/-- `pathlib.Path.stem`: final path component without its last suffix. -/
def path_stem (p : String) : String :=
  let base := (p.splitOn "/").getLastD p
  let parts := base.splitOn "."
  if parts.length ≤ 1 then base else String.intercalate "." parts.dropLast

/-! ## Tile arranger -/

/-- `TileArranger`: one tileset plus the growing geometry batch. -/
structure TileArranger where
  tileset : Tileset
  geom_builder : TileGeomBuilder

/-- `TileArranger.add_tile(gid, x, y)`: skip gid 0, otherwise decode the
flip transform, place the unit quad at `(x, -y-1)` scaled to the tile
size, and append it with the UV transform of local index
`gid - firstgid` (a Python int subtraction, which may be negative). -/
def TileArranger.add_tile (a : TileArranger) (gid : Nat) (x y : Nat) :
    Except LoadError TileArranger :=
  if gid = 0 then .ok a
  else
    let gt := extract_tile_transform gid
    let tile_scale :=
      Mat4.scale_mat a.tileset.tile_width 1 a.tileset.tile_height
    let tile_transform :=
      gt.2 * (Mat4.translate_mat x 0 (-(y : ℚ) - 1) * tile_scale)
    do
      let uv_transform ←
        get_tile_uv_transform a.tileset ((gt.1 : Int) - a.tileset.firstgid)
      .ok { a with geom_builder := a.geom_builder.add_tile tile_transform uv_transform }

/-- `TileArranger.generate_node()`: finalize the batch into a `GeomNode`
named `tile` with the render state of the tileset's atlas texture. -/
def TileArranger.generate_node (env : ImageEnv) (a : TileArranger) :
    Except LoadError PNode := do
  let texture ← load_tileset_image env a.tileset
  .ok (.node "tile" ⟨0, 0, 0⟩ ⟨1, 1, 1⟩ 0 none
    (.geomNode [(a.geom_builder.generate_geom, make_render_state texture)]) [])

/-! ## Map loader -/

/-- `MapLoader`: the parsed map plus the collider registry. -/
structure MapLoader where
  tiled_map : TiledMap
  collider_handler : ColliderMap

/-- The range test of `MapLoader.find_source`:
`0 <= gid - tileset.firstgid < tileset.tile_count` over Python ints. -/
def gid_in_range (g : Int) (ts : Tileset) : Bool :=
  decide (0 ≤ g - (ts.firstgid : Int)) && decide (g - (ts.firstgid : Int) < (ts.tile_count : Int))

/-- `MapLoader.find_source(gid)`: strip the four flag bits, then scan the
tilesets in document order for the one whose firstgid range contains the
cleaned id; `ValueError` if none does. -/
def find_source (L : MapLoader) (gid : Nat) : Except LoadError Tileset :=
  let g := clear_flags gid
  match (L.tiled_map.tilesets.map Prod.snd).find? (gid_in_range (g : Int)) with
  | some tileset => .ok tileset
  | none => .error .lookupFailure

/-- `MapLoader.load_tile_colliders()`: populate the registry from every
tileset of the map, in document order. -/
def load_tile_colliders (L : MapLoader) : Except LoadError ColliderMap :=
  (L.tiled_map.tilesets.map Prod.snd).foldlM ColliderMap.load_colliders L.collider_handler

/-- `MapLoader.place_object(tiled_object)`: a `Tile` object gets its own
single-tile mesh node positioned at `(0, 0, object_height)` and scaled by
`object_size / map_tile_size`, with the registered collider (if any)
attached *after* that scale is set, as a child of the scaled tile node at
its local origin; every object node then receives the object's pixel
position (Y inverted) and rotation.  Dividing by a zero map tile size
would raise `ZeroDivisionError` in Python. -/
def place_object (env : ImageEnv) (L : MapLoader) (obj : TiledObject) :
    Except LoadError PNode :=
  let object_path := PNode.fresh obj.name
  match obj.kind with
  | .tileObj gid => do
      let tileset ← find_source L gid
      let arranger : TileArranger := ⟨tileset, ⟨[]⟩⟩
      let arranger ← arranger.add_tile gid 0 0
      let tile ← arranger.generate_node env
      if L.tiled_map.tile_size.1 = 0 ∨ L.tiled_map.tile_size.2 = 0 then
        .error .zeroDivision
      else
        let width_scale := obj.size.1 / (L.tiled_map.tile_size.1 : ℚ)
        let height_scale := obj.size.2 / (L.tiled_map.tile_size.2 : ℚ)
        let tile_path := (tile.set_pos ⟨0, 0, obj.size.2⟩).set_scale
          ⟨width_scale, 1, height_scale⟩
        let tile_path :=
          match L.collider_handler.get_collider gid with
          | some collision_node => tile_path.add_child (collision_pnode collision_node)
          | none => tile_path
        .ok (((object_path.add_child tile_path).set_pos
          ⟨obj.coordinates.1, 0, -obj.coordinates.2⟩).set_r obj.rotation)
  | _ =>
      .ok ((object_path.set_pos ⟨obj.coordinates.1, 0, -obj.coordinates.2⟩).set_r
        obj.rotation)

/-- One registered collider placement in a tile layer: a
`collider_location` node at the cell's pixel position holding the
collision node. -/
def collider_location_node (i j tile_width tile_height : Nat)
    (c : CollisionNode) : PNode :=
  .node "collider_location" ⟨i * tile_width, 0, -((j * tile_height : Nat) : ℚ)⟩
    ⟨1, 1, 1⟩ 0 none .plain [collision_pnode c]

/-- The row-major cell stream `(j, i, gid)` of a tile layer's grid
(`enumerate` over rows, then over cells; `layer.data or ()`). -/
def layer_cells (data : Option (List (List Nat))) : List (Nat × Nat × Nat) :=
  (data.getD []).enum.flatMap fun je => je.2.enum.map fun ie => (je.1, ie.1, ie.2)

/-- The body of `load_tile_layer`'s cell loop, for one `(j, i, gid)`
cell: add the gid's quad to the arranger and, independently, append a
placed collider when the registry holds the gid. -/
def tile_layer_step (L : MapLoader) (tile_width tile_height : Nat)
    (st : TileArranger × List PNode) (cell : Nat × Nat × Nat) :
    Except LoadError (TileArranger × List PNode) := do
  let arranger ← st.1.add_tile cell.2.2 cell.2.1 cell.1
  let colliders :=
    match L.collider_handler.get_collider cell.2.2 with
    | some c =>
        st.2 ++ [collider_location_node cell.2.1 cell.1 tile_width tile_height c]
    | none => st.2
  .ok (arranger, colliders)

/-- `MapLoader.load_tile_layer(layer)`: one `TileArranger` seeded with
`self.tiled_map.tilesets[1]` (a `KeyError` if that key is absent) shared
by the whole grid; every non-empty gid adds one quad, and every gid with
a registry entry adds one placed collider under `cluster_collider`. -/
def load_tile_layer (env : ImageEnv) (L : MapLoader) (name : String)
    (data : Option (List (List Nat))) : Except LoadError PNode :=
  let tile_width := L.tiled_map.tile_size.1
  let tile_height := L.tiled_map.tile_size.2
  match L.tiled_map.tileset_at 1 with
  | none => .error (.keyError 1)
  | some ts => do
      let st ← (layer_cells data).foldlM
        (tile_layer_step L tile_width tile_height)
        (⟨ts, ⟨[]⟩⟩, ([] : List PNode))
      let cluster ← st.1.generate_node env
      let collider_parent : PNode :=
        .node "cluster_collider" ⟨0, 0, 0⟩ ⟨1, 1, 1⟩ 0 none .plain st.2
      .ok ((PNode.fresh name).add_child (cluster.add_child collider_parent))

/-- `load_image_layer(layer)`: a single textured card of the image's
native pixel size (frame `(0, w, -h, 0)`), its opacity rewritten into a
new texture's alpha channel. -/
def load_image_layer (env : ImageEnv) (name image : String) (opacity : ℚ) :
    PNode :=
  let layer_node := PNode.fresh name
  let texture : Texture :=
    { source := image, x_size := (env.sizeOf' image).1,
      y_size := (env.sizeOf' image).2, num_components := env.components image,
      alpha_fill := none }
  let width := texture.x_size
  let height := texture.y_size
  let texture := modify_opacity texture opacity
  let image_node : PNode :=
    (PNode.node (path_stem image) ⟨0, 0, 0⟩ ⟨1, 1, 1⟩ 0 none
      (.card (0, width, -(height : ℚ), 0)) []).set_state (make_render_state texture)
  layer_node.add_child image_node

/-- `MapLoader.load_object_layer(layer)`: each object becomes its own
subtree under the layer node. -/
def load_object_layer (env : ImageEnv) (L : MapLoader) (name : String)
    (objs : List TiledObject) : Except LoadError PNode := do
  let nodes ← objs.mapM (place_object env L)
  .ok (.node name ⟨0, 0, 0⟩ ⟨1, 1, 1⟩ 0 none .plain nodes)

mutual

/-- `MapLoader.load_layer(layer)`: dispatch on the layer kind.  The image
branch first *rebinds the parsed layer's `image` field* to
`map_file.parent / layer.image` — an in-place mutation of the parsed
document, returned here as the updated layer alongside the node.  All
other branches leave the layer as they found it (groups return their
recursively updated sublayers). -/
def load_layer (env : ImageEnv) (L : MapLoader) :
    Layer → Except LoadError (PNode × Layer)
  | .tile name data => do
      let n ← load_tile_layer env L name data
      .ok (n, .tile name data)
  | .object name objs => do
      let n ← load_object_layer env L name objs
      .ok (n, .object name objs)
  | .image name img opacity =>
      let img' := L.tiled_map.map_file_parent ++ "/" ++ img
      .ok (load_image_layer env name img' opacity, .image name img' opacity)
  | .group name none => .ok (PNode.fresh name, .group name none)
  | .group name (some ls) => do
      let rs ← load_layers env L ls
      .ok (.node name ⟨0, 0, 0⟩ ⟨1, 1, 1⟩ 0 none .plain (rs.map Prod.fst),
        .group name (some (rs.map Prod.snd)))
  | .other _ => .error (.unsupported "Unsupported layer type")

/-- The sublayer loop of `MapLoader.load_layer_group`. -/
def load_layers (env : ImageEnv) (L : MapLoader) :
    List Layer → Except LoadError (List (PNode × Layer))
  | [] => .ok []
  | l :: ls => do
      let r ← load_layer env L l
      let rs ← load_layers env L ls
      .ok (r :: rs)

end

/-- `MapLoader.load_map()`: compose every top-level layer in document
order under one root named after the map file's stem. -/
def MapLoader.load_map (env : ImageEnv) (L : MapLoader) :
    Except LoadError PNode := do
  let rs ← load_layers env L L.tiled_map.layers
  .ok (.node L.tiled_map.map_file_stem ⟨0, 0, 0⟩ ⟨1, 1, 1⟩ 0 none .plain
    (rs.map Prod.fst))

/-- The module-level `load_map(path)` entry point, taking the already
parsed document (`pytiled_parser.parse_map` is the external parser):
reject infinite and non-orthogonal maps up front, then populate the
collider registry for every tileset and compose the layers.  On success
it returns the scene root together with the registry it built; a
validation failure returns only the error — no node and no registry entry
exists. -/
def load_map (env : ImageEnv) (tiled_map : TiledMap) :
    Except LoadError (PNode × ColliderMap) :=
  if tiled_map.infinite then .error (.unsupported "Cannot load an infinite map")
  else if tiled_map.orientation ≠ "orthogonal" then
    .error (.unsupported ("Unsupported map orientation: " ++ tiled_map.orientation))
  else do
    let colliders ← load_tile_colliders ⟨tiled_map, ColliderMap.empty⟩
    let root ← MapLoader.load_map env ⟨tiled_map, colliders⟩
    .ok (root, colliders)

/-! ## Observation helpers

Projections reading facts off the built scene trees, used to state the
claims.  They are observers only; the loader above never calls them. -/

/-- The mesh (vertex rows) of a tile-layer node: its single child is the
`tile` geom node holding one geom. -/
def tile_layer_mesh (n : PNode) : Option (List VertexRow) :=
  match n.children with
  | [cluster] =>
      match cluster.core with
      | .geomNode [(g, _)] => some g.vertex_data
      | _ => none
  | _ => none

/-- The number of mesh vertices of a tile-layer node. -/
def tile_layer_mesh_count (n : PNode) : Option Nat :=
  (tile_layer_mesh n).map List.length

/-- The number of collider placements of a tile-layer node: the children
of its `cluster_collider` node. -/
def tile_layer_collider_count (n : PNode) : Option Nat :=
  match n.children with
  | [cluster] =>
      match cluster.children with
      | [collider_parent] => some collider_parent.children.length
      | _ => none
  | _ => none

/-- The coordinates, in the parent's frame, of a point given in a node's
local frame: the node's scale applied first, then its translation.
Defined only for un-rolled nodes (a nonzero `set_r` would need
trigonometric entries); every inspected node has roll 0. -/
def PNode.to_parent_frame_no_roll (n : PNode) (p : Vec3) : Option Vec3 :=
  if n.roll = 0 then
    some ⟨p.x * n.scale.x + n.pos.x, p.y * n.scale.y + n.pos.y,
      p.z * n.scale.z + n.pos.z⟩
  else none

/-- For a placed `Tile` object that carries exactly one box collider:
the box's max corner expressed in the *object* node's frame (the collider
node has identity local transform and sits under the scaled tile node). -/
def object_collider_corner_in_object_frame (res : Except LoadError PNode) :
    Option Vec3 :=
  match res with
  | .ok n =>
      match n.children with
      | [tile] =>
          match tile.children with
          | [c] =>
              match c.core with
              | .collision cn =>
                  match cn.solids with
                  | [s] => tile.to_parent_frame_no_roll s.corner_max
                  | _ => none
              | _ => none
          | _ => none
      | _ => none
  | _ => none

/-- The `image` field of a parsed layer, when it is an image layer. -/
def layer_image_path : Layer → Option String
  | .image _ img _ => some img
  | _ => none

/-- `true` when a layer contains no image layer, directly or nested. -/
def image_free : Layer → Bool
  | .tile _ _ => true
  | .object _ _ => true
  | .image _ _ _ => false
  | .group _ none => true
  | .group _ (some ls) => ls.attach.all fun ⟨l, _⟩ => image_free l
  | .other _ => true

/-- Whether an `Except` result is a success. -/
def except_ok {ε α : Type} : Except ε α → Bool
  | .ok _ => true
  | .error _ => false

/-! ## Concrete fixtures for the claims' test cases -/

/-- The injected image collaborator for the concrete cases: every image
file is 128×64 with 4 channels. -/
def test_env : ImageEnv :=
  { sizeOf' := fun _ => (128, 64), components := fun _ => 4 }

/-- The spec's first demo tileset: firstgid 1, 10 tiles, 32×32 tiles, no
margin/spacing, 4 columns, 128×64 atlas. -/
def tileset_a : Tileset :=
  { name := "a", firstgid := 1, tile_count := 10, tile_width := 32,
    tile_height := 32, margin := 0, spacing := 0, columns := 4,
    image := some "a.png", image_width := some 128, image_height := some 64,
    tiles := none }

/-- The spec's second demo tileset: firstgid 11, 5 tiles. -/
def tileset_b : Tileset :=
  { name := "b", firstgid := 11, tile_count := 5, tile_width := 32,
    tile_height := 32, margin := 0, spacing := 0, columns := 4,
    image := some "b.png", image_width := some 128, image_height := some 64,
    tiles := none }

/-- A tileset unrelated to `tileset_a`, owning the same gid range, for
showing the tile-grid path ignores every tileset but the one at key 1. -/
def tileset_c : Tileset :=
  { name := "c", firstgid := 1, tile_count := 10, tile_width := 16,
    tile_height := 16, margin := 2, spacing := 2, columns := 8,
    image := some "c.png", image_width := some 256, image_height := some 32,
    tiles := none }

/-- The spec's two-tileset demo map (orthogonal, finite, 32×32 tiles). -/
def two_tileset_map : TiledMap :=
  { map_file_parent := "maps", map_file_stem := "demo",
    orientation := "orthogonal", infinite := false, tile_size := (32, 32),
    tilesets := [(0, tileset_a), (1, tileset_b)], layers := [] }

/-- The demo map with an empty collider registry. -/
def two_tileset_loader : MapLoader := ⟨two_tileset_map, ColliderMap.empty⟩

/-- The demo map, declared infinite, for the rejection case. -/
def infinite_map : TiledMap := { two_tileset_map with infinite := true }

/-- The demo map with the second declared tileset replaced: it agrees
with `two_tileset_map` at key 1 and differs everywhere else. -/
def other_tilesets_map : TiledMap :=
  { two_tileset_map with tilesets := [(0, tileset_c), (1, tileset_b)] }

/-- The registry node of a tile whose metadata is one 32×16 rectangle. -/
def demo_collider : CollisionNode :=
  ⟨"collision_node", [⟨⟨0, -16, -16⟩, ⟨32, 16, 0⟩⟩]⟩

/-- The demo map with `demo_collider` registered for gid 1. -/
def scaled_object_loader : MapLoader :=
  ⟨two_tileset_map, ColliderMap.empty.store 1 demo_collider⟩

/-- A `Tile` object of declared size 64×64 (twice the 32×32 map tile
size) referencing gid 1. -/
def demo_tile_object : TiledObject :=
  { name := "obj", coordinates := (0, 0), rotation := 0, size := (64, 64),
    kind := .tileObj 1 }

/-- The expected UV transform of local tile index 5 in `tileset_a`:
scale (1/4, 1/2) with offset (1/4, 0). -/
def uv_demo_matrix : Mat4 :=
  { Mat4.ident with m00 := 1/4, m22 := 1/2, m30 := 1/4 }

/-- A free-standing 32×16 rectangle object (tile collision metadata). -/
def demo_rect_object : TiledObject :=
  { name := "box", coordinates := (0, 0), rotation := 0, size := (32, 16),
    kind := .rectangle }

/-- Tile 3 of `collider_tileset`, carrying the single 32×16 rectangle. -/
def collider_tile : TsTile := ⟨3, some [demo_rect_object]⟩

/-- A tileset whose tile 3 carries a single 32×16 rectangle. -/
def collider_tileset : Tileset :=
  { name := "col", firstgid := 7, tile_count := 10, tile_width := 32,
    tile_height := 32, margin := 0, spacing := 0, columns := 4,
    image := some "col.png", image_width := some 128, image_height := some 64,
    tiles := some [collider_tile] }

theorem Mat4.mul_def (a b : Mat4) : a * b = Mat4.mul a b := rfl

/-! ## Bit-level lemmas about `clear_flags` -/

theorem testBit_clear_flags (g i : Nat) :
    (clear_flags g).testBit i = (g.testBit i && !(FLAG_MASK.testBit i)) := by
  unfold clear_flags
  rw [Nat.testBit_xor, Nat.testBit_land]
  cases g.testBit i <;> cases FLAG_MASK.testBit i <;> rfl

theorem clear_flags_land_mask (g : Nat) : clear_flags g &&& FLAG_MASK = 0 := by
  apply Nat.eq_of_testBit_eq
  intro i
  rw [Nat.testBit_land, testBit_clear_flags, Nat.zero_testBit]
  cases g.testBit i <;> cases FLAG_MASK.testBit i <;> rfl

theorem clear_flags_lor (g s : Nat) (hs : s &&& FLAG_MASK = s) :
    clear_flags (g ||| s) = clear_flags g := by
  apply Nat.eq_of_testBit_eq
  intro i
  rw [testBit_clear_flags, testBit_clear_flags, Nat.testBit_lor]
  have hsb : s.testBit i = (s.testBit i && FLAG_MASK.testBit i) := by
    conv_lhs => rw [← hs]
    rw [Nat.testBit_land]
  cases hm : FLAG_MASK.testBit i
  · have hz : s.testBit i = false := by rw [hsb, hm, Bool.and_false]
    rw [hz]
    cases g.testBit i <;> rfl
  · cases g.testBit i <;> cases s.testBit i <;> rfl

theorem clear_flags_idem (g : Nat) :
    clear_flags (clear_flags g) = clear_flags g := by
  apply Nat.eq_of_testBit_eq
  intro i
  rw [testBit_clear_flags, testBit_clear_flags]
  cases g.testBit i <;> cases FLAG_MASK.testBit i <;> rfl

/-! ## The claims -/

/-- C4: for every gid in which none of the diagonal, horizontal or
vertical flip flag bits is set, `extract_tile_transform` returns the
identity transform together with the gid with all four flag bits
(including the hexagonal-rotation flag) cleared; and for every gid
whatsoever, the returned gid is the input with all four flag bits masked
out (so none of them survives). -/
theorem C4_extract_no_flags_identity_and_clearing :
    (∀ gid : Nat, gid &&& DIAGONAL_FLIP_FLAG = 0 →
        gid &&& HORIZONTAL_FLIP_FLAG = 0 → gid &&& VERTICAL_FLIP_FLAG = 0 →
        extract_tile_transform gid = (clear_flags gid, Mat4.ident)) ∧
    (∀ gid : Nat, (extract_tile_transform gid).1 = clear_flags gid ∧
        (extract_tile_transform gid).1 &&& FLAG_MASK = 0) := by
  constructor
  · intro gid hd hh hv
    simp [extract_tile_transform, hd, hh, hv]
  · intro gid
    refine ⟨rfl, ?_⟩
    rw [show (extract_tile_transform gid).1 = clear_flags gid from rfl]
    exact clear_flags_land_mask gid

/-- Witness for C4: gid `0x10000007` (only the defensive
hexagonal-rotation flag set) decodes to the identity with the flag
stripped, and gid `0x90000007` comes back with every flag bit cleared. -/
theorem C4_witness :
    extract_tile_transform 0x10000007 = (clear_flags 0x10000007, Mat4.ident) ∧
    ((extract_tile_transform 0x90000007).1 = clear_flags 0x90000007 ∧
      (extract_tile_transform 0x90000007).1 &&& FLAG_MASK = 0) :=
  ⟨C4_extract_no_flags_identity_and_clearing.1 0x10000007 (by decide)
      (by decide) (by decide),
    C4_extract_no_flags_identity_and_clearing.2 0x90000007⟩

/-- C10: `find_source` is invariant under the flip/rotation flag bits:
overlaying any subset of the four flag bits on a gid gives the same
result (found tileset or lookup failure) as clearing all flag bits. -/
theorem C10_find_source_flag_invariant (L : MapLoader) (gid s : Nat)
    (hs : s &&& FLAG_MASK = s) :
    find_source L (gid ||| s) = find_source L (clear_flags gid) := by
  unfold find_source
  rw [clear_flags_lor gid s hs, clear_flags_idem]

/-- Witness for C10: setting the horizontal and diagonal flags on gid 15
resolves exactly as the fully cleaned gid does. -/
theorem C10_witness :
    find_source two_tileset_loader (15 ||| 0xA0000000) =
      find_source two_tileset_loader (clear_flags 15) :=
  C10_find_source_flag_invariant two_tileset_loader 15 0xA0000000 (by decide)

/-- C2: `find_source` first clears the four flag bits and returns a
tileset of the map satisfying `0 ≤ cleaned_gid - firstgid < tile_count`;
on the two-tileset demo map (firstgid 1 / count 10 and firstgid 11 /
count 5), gid 15 resolves to the second tileset while gids 0 and 100
raise the lookup error. -/
theorem C2_find_source_range_lookup :
    (∀ (L : MapLoader) (gid : Nat) (ts : Tileset), find_source L gid = .ok ts →
        ts ∈ L.tiled_map.tilesets.map Prod.snd ∧
        0 ≤ (clear_flags gid : Int) - ts.firstgid ∧
        (clear_flags gid : Int) - ts.firstgid < ts.tile_count) ∧
    find_source two_tileset_loader 15 = .ok tileset_b ∧
    find_source two_tileset_loader 0 = .error .lookupFailure ∧
    find_source two_tileset_loader 100 = .error .lookupFailure := by
  refine ⟨?_, rfl, rfl, rfl⟩
  intro L gid ts h
  unfold find_source at h
  dsimp only at h
  split at h
  · rename_i t hf
    obtain rfl : t = ts := by cases h; rfl
    refine ⟨List.mem_of_find?_eq_some hf, ?_⟩
    have hp := List.find?_some hf
    simpa [gid_in_range] using hp
  · cases h

/-- Witness for C2's universally quantified part, at the demo map and
gid 15. -/
theorem C2_witness :
    tileset_b ∈ two_tileset_loader.tiled_map.tilesets.map Prod.snd ∧
    0 ≤ (clear_flags 15 : Int) - tileset_b.firstgid ∧
    (clear_flags 15 : Int) - tileset_b.firstgid < tileset_b.tile_count :=
  C2_find_source_range_lookup.1 two_tileset_loader 15 tileset_b rfl

/-- C1: the top-level `load_map` entry point rejects an infinite or
non-orthogonal parsed map with `UnsupportedError`, producing neither a
scene node nor a collider-registry entry (the error is its entire
result; validation precedes registry population and layer composition). -/
theorem C1_load_map_rejects_unsupported (env : ImageEnv) (m : TiledMap)
    (h : m.infinite = true ∨ m.orientation ≠ "orthogonal") :
    ∃ msg, load_map env m = .error (.unsupported msg) := by
  unfold load_map
  by_cases hi : m.infinite
  · exact ⟨"Cannot load an infinite map", by simp [hi]⟩
  · have ho : m.orientation ≠ "orthogonal" := by
      rcases h with h | h
      · exact absurd h (by simpa using hi)
      · exact h
    exact ⟨"Unsupported map orientation: " ++ m.orientation, by simp [hi, ho]⟩

/-- Witness for C1: the infinite demo map is rejected. -/
theorem C1_witness :
    ∃ msg, load_map test_env infinite_map = .error (.unsupported msg) :=
  C1_load_map_rejects_unsupported test_env infinite_map (Or.inl rfl)

theorem foldlM_colliders_none (fg : Nat) (l : List TsTile) (m : ColliderMap)
    (hl : ∀ t ∈ l, t.objects = none) :
    l.foldlM (load_colliders_step fg) m = .ok m := by
  induction l generalizing m with
  | nil => rfl
  | cons t l ih =>
      have ht : t.objects = none := hl t (by simp)
      rw [List.foldlM_cons,
        show load_colliders_step fg m t = pure m from by
          simp only [load_colliders_step, ht]; rfl,
        pure_bind]
      exact ih m fun u hu => hl u (by simp [hu])

theorem foldlM_colliders_skip (fg : Nat) (l rest : List TsTile)
    (m : ColliderMap) (hl : ∀ t ∈ l, t.objects = none) :
    (l ++ rest).foldlM (load_colliders_step fg) m =
      rest.foldlM (load_colliders_step fg) m := by
  induction l generalizing m with
  | nil => rfl
  | cons t l ih =>
      have ht : t.objects = none := hl t (by simp)
      rw [List.cons_append, List.foldlM_cons,
        show load_colliders_step fg m t = pure m from by
          simp only [load_colliders_step, ht]; rfl,
        pure_bind]
      exact ih m fun u hu => hl u (by simp [hu])

/-- C8: loading a tileset whose only tile with object-layer metadata
carries a single 32×16 rectangle produces exactly one registry entry,
keyed at `firstgid + tile_id` and holding the corresponding box; every
other gid looks up to `none`. -/
theorem C8_load_colliders_single_rectangle (ts : Tileset) (t : TsTile)
    (l₁ l₂ : List TsTile) (o : TiledObject)
    (ht : ts.tiles = some (l₁ ++ t :: l₂))
    (h₁ : ∀ u ∈ l₁, u.objects = none) (h₂ : ∀ u ∈ l₂, u.objects = none)
    (hobj : t.objects = some [o]) (hkind : o.kind = .rectangle)
    (hsize : o.size = (32, 16)) :
    ∃ s, ColliderMap.empty.load_colliders ts = .ok s ∧
      s.get_collider (ts.firstgid + t.id) =
        some ⟨"collision_node", [⟨⟨0, -16, -16⟩, ⟨32, 16, 0⟩⟩]⟩ ∧
      ∀ g, g ≠ ts.firstgid + t.id → s.get_collider g = none := by
  refine ⟨ColliderMap.empty.store (ts.firstgid + t.id)
    ⟨"collision_node", [⟨⟨0, -16, -16⟩, ⟨32, 16, 0⟩⟩]⟩, ?_, ?_, ?_⟩
  · unfold ColliderMap.load_colliders
    rw [ht]
    dsimp only
    rw [foldlM_colliders_skip _ _ _ _ h₁, List.foldlM_cons,
      show load_colliders_step ts.firstgid ColliderMap.empty t =
        pure (ColliderMap.empty.store (ts.firstgid + t.id)
          ⟨"collision_node", [⟨⟨0, -16, -16⟩, ⟨32, 16, 0⟩⟩]⟩) from by
        simp only [load_colliders_step, hobj, List.mapM, List.mapM.loop,
          load_collider, hkind, hsize]
        rfl,
      pure_bind]
    exact foldlM_colliders_none _ _ _ h₂
  · simp [ColliderMap.get_collider, ColliderMap.store]
  · intro g hg
    simp [ColliderMap.get_collider, ColliderMap.store, hg, ColliderMap.empty]

/-- Witness for C8: `collider_tileset` (firstgid 7, rectangle on tile 3)
yields exactly the entry at gid 10. -/
theorem C8_witness :
    ∃ s, ColliderMap.empty.load_colliders collider_tileset = .ok s ∧
      s.get_collider (collider_tileset.firstgid + collider_tile.id) =
        some ⟨"collision_node", [⟨⟨0, -16, -16⟩, ⟨32, 16, 0⟩⟩]⟩ ∧
      ∀ g, g ≠ collider_tileset.firstgid + collider_tile.id →
        s.get_collider g = none :=
  C8_load_colliders_single_rectangle collider_tileset collider_tile [] []
    demo_rect_object rfl (by simp) (by simp) rfl rfl rfl

theorem PNode.core_add_child (n c : PNode) : (n.add_child c).core = n.core := by
  cases n; rfl

theorem PNode.children_add_child (n c : PNode) :
    (n.add_child c).children = n.children ++ [c] := by
  cases n; rfl

/-- The arranger (mesh) component of the tile-layer cell fold neither
reads the collider registry nor the map tile size: those only shape the
collider list component. -/
theorem fold_arranger_independent (cells : List (Nat × Nat × Nat))
    (L₁ L₂ : MapLoader) (tw₁ th₁ tw₂ th₂ : Nat) (a : TileArranger)
    (c₁ c₂ : List PNode) :
    (cells.foldlM (tile_layer_step L₁ tw₁ th₁) (a, c₁)).map Prod.fst =
      (cells.foldlM (tile_layer_step L₂ tw₂ th₂) (a, c₂)).map Prod.fst := by
  induction cells generalizing a c₁ c₂ with
  | nil => rfl
  | cons cell cells ih =>
      rw [List.foldlM_cons, List.foldlM_cons]
      cases h : a.add_tile cell.2.2 cell.2.1 cell.1 with
      | error e => simp [tile_layer_step, h, Except.map, bind, Except.bind]
      | ok a' =>
          simp only [tile_layer_step, h, bind, Except.bind]
          exact ih a' _ _

/-- C3: the tile-grid composer builds the whole grid's mesh from the
single tileset found at key 1 of the map's tileset mapping (per the
spec's reading of the external parser, the second declared tileset):
two loaders agreeing at that key — whatever their other tilesets, map
tile size or collider registries, and wherever the layer's gids actually
fall — produce identical tile-layer meshes. -/
theorem C3_tile_grid_single_tileset (env : ImageEnv) (L₁ L₂ : MapLoader)
    (name : String) (data : Option (List (List Nat)))
    (hts : L₁.tiled_map.tileset_at 1 = L₂.tiled_map.tileset_at 1) :
    (load_tile_layer env L₁ name data).map tile_layer_mesh =
      (load_tile_layer env L₂ name data).map tile_layer_mesh := by
  unfold load_tile_layer
  rw [hts]
  cases h : L₂.tiled_map.tileset_at 1 with
  | none => rfl
  | some ts =>
      dsimp only
      have hfold := fold_arranger_independent (layer_cells data) L₁ L₂
        L₁.tiled_map.tile_size.1 L₁.tiled_map.tile_size.2
        L₂.tiled_map.tile_size.1 L₂.tiled_map.tile_size.2 ⟨ts, ⟨[]⟩⟩ [] []
      cases hf₁ : (layer_cells data).foldlM
          (tile_layer_step L₁ L₁.tiled_map.tile_size.1 L₁.tiled_map.tile_size.2)
          (⟨ts, ⟨[]⟩⟩, ([] : List PNode)) with
      | error e₁ =>
          cases hf₂ : (layer_cells data).foldlM
              (tile_layer_step L₂ L₂.tiled_map.tile_size.1 L₂.tiled_map.tile_size.2)
              (⟨ts, ⟨[]⟩⟩, ([] : List PNode)) with
          | error e₂ =>
              rw [hf₁, hf₂] at hfold
              obtain rfl : e₁ = e₂ := by simpa [Except.map] using hfold
              simp [bind, Except.bind]
          | ok st₂ =>
              rw [hf₁, hf₂] at hfold
              simp [Except.map] at hfold
      | ok st₁ =>
          cases hf₂ : (layer_cells data).foldlM
              (tile_layer_step L₂ L₂.tiled_map.tile_size.1 L₂.tiled_map.tile_size.2)
              (⟨ts, ⟨[]⟩⟩, ([] : List PNode)) with
          | error e₂ =>
              rw [hf₁, hf₂] at hfold
              simp [Except.map] at hfold
          | ok st₂ =>
              rw [hf₁, hf₂] at hfold
              have hst : st₁.1 = st₂.1 := by
                simpa [Except.map] using hfold
              simp only [bind, Except.bind, hst]
              cases hg : st₂.1.generate_node env with
              | error e => rfl
              | ok cluster =>
                  cases cluster
                  simp [Except.map, tile_layer_mesh, PNode.fresh,
                    PNode.add_child, PNode.children, PNode.core]

/-- Witness for C3: the demo map and its variant with an unrelated
tileset at key 0 (a different geometry owning the same gid range) give
the same mesh for a grid whose gids 12 and 3 fall in the key-1 and key-0
tilesets respectively. -/
theorem C3_witness :
    (load_tile_layer test_env two_tileset_loader "grid"
        (some [[12, 3]])).map tile_layer_mesh =
      (load_tile_layer test_env ⟨other_tilesets_map, ColliderMap.empty⟩ "grid"
        (some [[12, 3]])).map tile_layer_mesh :=
  C3_tile_grid_single_tileset test_env two_tileset_loader
    ⟨other_tilesets_map, ColliderMap.empty⟩ "grid" (some [[12, 3]]) rfl

/-- A gid of 0 is an empty cell: `add_tile` returns at once, appending
nothing. -/
theorem add_tile_zero (a : TileArranger) (x y : Nat) :
    a.add_tile 0 x y = .ok a := rfl

/-- When the UV lookup succeeds, `add_tile` on a non-zero gid succeeds,
keeps the tileset and appends exactly 6 vertex rows. -/
theorem add_tile_ok (a : TileArranger) (gid x y : Nat) (hgid : gid ≠ 0)
    (h : ∃ M, get_tile_uv_transform a.tileset
      ((clear_flags gid : Int) - a.tileset.firstgid) = .ok M) :
    ∃ a', a.add_tile gid x y = .ok a' ∧ a'.tileset = a.tileset ∧
      a'.geom_builder.vertex_data.length =
        a.geom_builder.vertex_data.length + 6 := by
  obtain ⟨M, hM⟩ := h
  have hM' : get_tile_uv_transform a.tileset
      (((extract_tile_transform gid).1 : Int) - a.tileset.firstgid) = .ok M := hM
  unfold TileArranger.add_tile
  rw [if_neg hgid]
  dsimp only
  rw [hM']
  refine ⟨_, rfl, rfl, ?_⟩
  simp [TileGeomBuilder.add_tile, quad_points]

/-- When the tileset has an image, `generate_node` succeeds and wraps the
finalized geometry. -/
theorem generate_node_ok (env : ImageEnv) (a : TileArranger) (img : String)
    (himg : a.tileset.image = some img) :
    ∃ rs, a.generate_node env = .ok (.node "tile" ⟨0, 0, 0⟩ ⟨1, 1, 1⟩ 0 none
      (.geomNode [(a.geom_builder.generate_geom, rs)]) []) := by
  unfold TileArranger.generate_node load_tileset_image
  rw [himg]
  exact ⟨_, rfl⟩

/-- C9: composing a 2×1 tile layer with gids `[5, 0]` (on any loader
whose key-1 tileset has usable atlas data) yields a batch mesh of
exactly 6 vertices — the empty cell contributes neither vertices nor a
collider — and the layer carries one collider placement when gid 5 has a
registry entry, none otherwise. -/
theorem C9_tile_layer_two_cells (env : ImageEnv) (L : MapLoader)
    (name img : String) (ts : Tileset) (iw ihh : Nat)
    (hts : L.tiled_map.tileset_at 1 = some ts)
    (himg : ts.image = some img)
    (hiw : ts.image_width = some iw) (hiw0 : iw ≠ 0)
    (hih : ts.image_height = some ihh) (hih0 : ihh ≠ 0)
    (hcols : ts.columns ≠ 0)
    (h0 : L.collider_handler.get_collider 0 = none) :
    ∃ n, load_tile_layer env L name (some [[5, 0]]) = .ok n ∧
      tile_layer_mesh_count n = some 6 ∧
      tile_layer_collider_count n =
        some (if (L.collider_handler.get_collider 5).isSome then 1 else 0) := by
  have huv : ∃ M, get_tile_uv_transform ts
      ((clear_flags 5 : Int) - ts.firstgid) = .ok M := by
    unfold get_tile_uv_transform
    rw [hiw, hih]
    dsimp only
    rw [if_neg (by simp [hiw0, hih0, hcols])]
    exact ⟨_, rfl⟩
  obtain ⟨a₅, ha₅, hats, hlen⟩ :=
    add_tile_ok ⟨ts, ⟨[]⟩⟩ 5 0 0 (by decide) huv
  have himg₅ : a₅.tileset.image = some img := by rw [hats]; exact himg
  obtain ⟨rs, hgen⟩ := generate_node_ok env a₅ img himg₅
  unfold load_tile_layer
  rw [hts]
  dsimp only
  rw [show layer_cells (some [[5, 0]]) = [(0, 0, 5), (0, 1, 0)] from rfl]
  simp only [List.foldlM_cons, List.foldlM_nil]
  cases hg5 : L.collider_handler.get_collider 5 with
  | some c =>
      rw [show tile_layer_step L L.tiled_map.tile_size.1 L.tiled_map.tile_size.2
          (⟨ts, ⟨[]⟩⟩, ([] : List PNode)) (0, 0, 5) =
          .ok (a₅, [collider_location_node 0 0 L.tiled_map.tile_size.1
            L.tiled_map.tile_size.2 c]) from by
        simp [tile_layer_step, ha₅, hg5, bind, Except.bind]]
      simp only [bind, Except.bind]
      rw [show ∀ cols, tile_layer_step L L.tiled_map.tile_size.1
          L.tiled_map.tile_size.2 (a₅, cols) (0, 1, 0) = .ok (a₅, cols) from by
        intro cols
        simp [tile_layer_step, add_tile_zero, h0, bind, Except.bind]]
      simp only [bind, Except.bind, pure, Except.pure, hgen]
      refine ⟨_, rfl, ?_, ?_⟩
      · simp [tile_layer_mesh_count, tile_layer_mesh, PNode.fresh,
          PNode.add_child, PNode.children, PNode.core,
          TileGeomBuilder.generate_geom, hlen]
      · simp [tile_layer_collider_count, PNode.fresh, PNode.add_child,
          PNode.children, hg5]
  | none =>
      rw [show tile_layer_step L L.tiled_map.tile_size.1 L.tiled_map.tile_size.2
          (⟨ts, ⟨[]⟩⟩, ([] : List PNode)) (0, 0, 5) =
          .ok (a₅, ([] : List PNode)) from by
        simp [tile_layer_step, ha₅, hg5, bind, Except.bind]]
      simp only [bind, Except.bind]
      rw [show ∀ cols, tile_layer_step L L.tiled_map.tile_size.1
          L.tiled_map.tile_size.2 (a₅, cols) (0, 1, 0) = .ok (a₅, cols) from by
        intro cols
        simp [tile_layer_step, add_tile_zero, h0, bind, Except.bind]]
      simp only [bind, Except.bind, pure, Except.pure, hgen]
      refine ⟨_, rfl, ?_, ?_⟩
      · simp [tile_layer_mesh_count, tile_layer_mesh, PNode.fresh,
          PNode.add_child, PNode.children, PNode.core,
          TileGeomBuilder.generate_geom, hlen]
      · simp [tile_layer_collider_count, PNode.fresh, PNode.add_child,
          PNode.children, hg5]

/-- Witness for C9: the demo map (tileset `b` at key 1, empty registry)
composes the `[5, 0]` grid into 6 vertices and no collider. -/
theorem C9_witness :
    ∃ n, load_tile_layer test_env two_tileset_loader "grid"
        (some [[5, 0]]) = .ok n ∧
      tile_layer_mesh_count n = some 6 ∧
      tile_layer_collider_count n =
        some (if (two_tileset_loader.collider_handler.get_collider 5).isSome
          then 1 else 0) :=
  C9_tile_layer_two_cells test_env two_tileset_loader "grid" "b.png"
    tileset_b 128 64 rfl rfl rfl (by decide) rfl (by decide) (by decide) rfl

/-- C7: for `tileset_a` (32×32 tiles, margin 0, spacing 0, 4 columns,
128×64 atlas), local tile index 5 is row 1 / column 1 by column-count
division, its pixel origin is (32, 32), and the resulting UV transform
maps every corner of the unit quad into `[0,1] × [0,1]`. -/
theorem C7_uv_transform_index5_demo :
    tile_row_col tileset_a 5 = (1, 1) ∧
    tile_pixel_origin tileset_a 5 = (32, 32) ∧
    get_tile_uv_transform tileset_a 5 = .ok uv_demo_matrix ∧
    ∀ p ∈ quad_points,
      0 ≤ (uv_demo_matrix.xform_point ⟨p.1, 0, p.2⟩).x ∧
      (uv_demo_matrix.xform_point ⟨p.1, 0, p.2⟩).x ≤ 1 ∧
      0 ≤ (uv_demo_matrix.xform_point ⟨p.1, 0, p.2⟩).z ∧
      (uv_demo_matrix.xform_point ⟨p.1, 0, p.2⟩).z ≤ 1 := by
  have hdm : tile_row_col tileset_a 5 = (1, 1) := by decide
  have hpo : tile_pixel_origin tileset_a 5 = (32, 32) := by decide
  refine ⟨hdm, hpo, ?_, ?_⟩
  · simp only [get_tile_uv_transform, tileset_a, tile_pixel_origin,
      tile_row_col]
    norm_num [Mat4.mul_def, Mat4.mul, Mat4.scale_mat, Mat4.translate_mat,
      Mat4.ident, uv_demo_matrix, Mat4.mk.injEq, Int.fdiv, Int.fmod]
  · intro p hp
    fin_cases hp <;>
      norm_num [Mat4.xform_point, uv_demo_matrix, Mat4.ident]

/-- Witness for C7's corner quantifier at the corner (1, 1). -/
theorem C7_witness :
    0 ≤ (uv_demo_matrix.xform_point ⟨1, 0, 1⟩).x ∧
    (uv_demo_matrix.xform_point ⟨1, 0, 1⟩).x ≤ 1 ∧
    0 ≤ (uv_demo_matrix.xform_point ⟨1, 0, 1⟩).z ∧
    (uv_demo_matrix.xform_point ⟨1, 0, 1⟩).z ≤ 1 :=
  C7_uv_transform_index5_demo.2.2.2 (1, 1) (by simp [quad_points])

/-- C5, counterexample: on the demo loader (map tile size 32×32, gid 1
registered with a 32×16 box) placing a `Tile` object of declared size
64×64 does *not* leave the collider in tile-native units: the collider is
a child of the tile node, which carries the object's scale 64/32 = 2, so
the box's max corner (32, 16, 0) sits at (64, 16, 64) in the object's
frame — not at (32, 16, 64) as a tile-native (unscaled) collider would. -/
theorem C5_counterexample :
    object_collider_corner_in_object_frame
        (place_object test_env scaled_object_loader demo_tile_object) =
      some ⟨64, 16, 64⟩ ∧
    some (⟨64, 16, 64⟩ : Vec3) ≠ some (⟨32, 16, 64⟩ : Vec3) := by
  refine ⟨?_, by decide⟩
  have h1 : find_source scaled_object_loader 1 = .ok tileset_a := rfl
  obtain ⟨a₁, ha₁, hats, _⟩ :=
    add_tile_ok ⟨tileset_a, ⟨[]⟩⟩ 1 0 0 (by decide) ⟨_, rfl⟩
  obtain ⟨rs, hgen⟩ :=
    generate_node_ok test_env a₁ "a.png" (by rw [hats]; rfl)
  have h2 : scaled_object_loader.collider_handler.get_collider 1 =
      some demo_collider := rfl
  simp only [place_object, demo_tile_object, h1, bind, Except.bind, ha₁, hgen,
    h2]
  norm_num [scaled_object_loader, two_tileset_map,
    object_collider_corner_in_object_frame, collision_pnode, demo_collider,
    PNode.fresh, PNode.set_pos, PNode.set_scale, PNode.set_r, PNode.add_child,
    PNode.children, PNode.core, PNode.to_parent_frame_no_roll, PNode.roll,
    PNode.scale, PNode.pos]

/-- C5, amended: `place_object` on a `Tile` object with a registered
collider attaches the collider as a child of the *tile* node, at the
tile's local origin (identity local transform), after that tile node has
received position `(0, 0, object_height)` and scale
`object_size / map_tile_size`; since a child inherits its parent's
transform, the collider's dimensions in the object's frame are the
tile-native box scaled by `object_size / map_tile_size`, not tile-native. -/
theorem C5_amended_collider_under_scaled_tile (env : ImageEnv)
    (L : MapLoader) (obj : TiledObject) (gid : Nat) (ts : Tileset)
    (img : String) (c : CollisionNode)
    (hk : obj.kind = .tileObj gid) (hgid : gid ≠ 0)
    (hfs : find_source L gid = .ok ts)
    (huv : ∃ M, get_tile_uv_transform ts
      ((clear_flags gid : Int) - ts.firstgid) = .ok M)
    (himg : ts.image = some img)
    (htw : L.tiled_map.tile_size.1 ≠ 0) (hth : L.tiled_map.tile_size.2 ≠ 0)
    (hc : L.collider_handler.get_collider gid = some c) :
    ∃ tile_node, place_object env L obj = .ok
        (.node obj.name ⟨obj.coordinates.1, 0, -obj.coordinates.2⟩ ⟨1, 1, 1⟩
          obj.rotation none .plain [tile_node]) ∧
      tile_node.pos = ⟨0, 0, obj.size.2⟩ ∧
      tile_node.scale = ⟨obj.size.1 / (L.tiled_map.tile_size.1 : ℚ), 1,
        obj.size.2 / (L.tiled_map.tile_size.2 : ℚ)⟩ ∧
      tile_node.roll = 0 ∧
      tile_node.children = [collision_pnode c] ∧
      (collision_pnode c).pos = ⟨0, 0, 0⟩ ∧
      (collision_pnode c).scale = ⟨1, 1, 1⟩ ∧
      ∀ p : Vec3, tile_node.to_parent_frame_no_roll p =
        some ⟨p.x * (obj.size.1 / (L.tiled_map.tile_size.1 : ℚ)), p.y,
          p.z * (obj.size.2 / (L.tiled_map.tile_size.2 : ℚ)) + obj.size.2⟩ := by
  obtain ⟨a', ha, hats, _⟩ := add_tile_ok ⟨ts, ⟨[]⟩⟩ gid 0 0 hgid huv
  obtain ⟨rs, hgen⟩ := generate_node_ok env a' img (by rw [hats]; exact himg)
  unfold place_object
  rw [hk]
  dsimp only
  rw [hfs]
  simp only [bind, Except.bind, ha, hgen,
    if_neg (by simp [htw, hth] : ¬(L.tiled_map.tile_size.1 = 0 ∨
      L.tiled_map.tile_size.2 = 0)), hc]
  refine ⟨_, rfl, rfl, rfl, rfl, rfl, rfl, rfl, ?_⟩
  intro p
  simp [PNode.to_parent_frame_no_roll, PNode.roll, PNode.scale, PNode.pos,
    PNode.set_pos, PNode.set_scale, PNode.add_child, PNode.fresh]

/-- Witness for C5's amended theorem, at the demo loader and the 64×64
object over gid 1. -/
theorem C5_witness :
    ∃ tile_node, place_object test_env scaled_object_loader demo_tile_object =
        .ok (.node demo_tile_object.name
          ⟨demo_tile_object.coordinates.1, 0, -demo_tile_object.coordinates.2⟩
          ⟨1, 1, 1⟩ demo_tile_object.rotation none .plain [tile_node]) ∧
      tile_node.pos = ⟨0, 0, demo_tile_object.size.2⟩ ∧
      tile_node.scale = ⟨demo_tile_object.size.1 /
          (scaled_object_loader.tiled_map.tile_size.1 : ℚ), 1,
        demo_tile_object.size.2 /
          (scaled_object_loader.tiled_map.tile_size.2 : ℚ)⟩ ∧
      tile_node.roll = 0 ∧
      tile_node.children = [collision_pnode demo_collider] ∧
      (collision_pnode demo_collider).pos = ⟨0, 0, 0⟩ ∧
      (collision_pnode demo_collider).scale = ⟨1, 1, 1⟩ ∧
      ∀ p : Vec3, tile_node.to_parent_frame_no_roll p =
        some ⟨p.x * (demo_tile_object.size.1 /
            (scaled_object_loader.tiled_map.tile_size.1 : ℚ)), p.y,
          p.z * (demo_tile_object.size.2 /
            (scaled_object_loader.tiled_map.tile_size.2 : ℚ)) +
            demo_tile_object.size.2⟩ :=
  C5_amended_collider_under_scaled_tile test_env scaled_object_loader
    demo_tile_object 1 tileset_a "a.png" demo_collider rfl (by decide) rfl
    ⟨_, rfl⟩ rfl (by decide) (by decide) rfl

/-- C6, counterexample: composing an image layer *does* mutate the
parsed document — `load_layer` rebinds the layer's `image` field to the
map-directory-resolved path, so the layer comes back with
`maps/bg.png` instead of its original `bg.png`. -/
theorem C6_counterexample :
    (load_layer test_env two_tileset_loader (.image "bg" "bg.png" 1)).map
        (fun r => layer_image_path r.2) = .ok (some "maps/bg.png") ∧
    some "maps/bg.png" ≠ some "bg.png" := by
  constructor
  · rfl
  · decide

mutual

theorem load_layer_image_free_aux (env : ImageEnv) (L : MapLoader) :
    ∀ (l : Layer) (n : PNode) (l' : Layer), image_free l = true →
      load_layer env L l = .ok (n, l') → l' = l
  | .tile name data, n, l', _, h => by
      unfold load_layer at h
      cases hl : load_tile_layer env L name data with
      | error e => rw [hl] at h; cases h
      | ok m =>
          rw [hl] at h
          simp only [bind, Except.bind, Except.ok.injEq, Prod.mk.injEq] at h
          exact h.2.symm
  | .object name objs, n, l', _, h => by
      unfold load_layer at h
      cases hl : load_object_layer env L name objs with
      | error e => rw [hl] at h; cases h
      | ok m =>
          rw [hl] at h
          simp only [bind, Except.bind, Except.ok.injEq, Prod.mk.injEq] at h
          exact h.2.symm
  | .image name img o, n, l', hfree, h => by
      simp [image_free] at hfree
  | .group name none, n, l', _, h => by
      unfold load_layer at h
      simp only [Except.ok.injEq, Prod.mk.injEq] at h
      exact h.2.symm
  | .group name (some ls), n, l', hfree, h => by
      unfold load_layer at h
      cases hl : load_layers env L ls with
      | error e => rw [hl] at h; cases h
      | ok rs =>
          rw [hl] at h
          simp only [bind, Except.bind, Except.ok.injEq, Prod.mk.injEq] at h
          have hall : ∀ x ∈ ls, image_free x = true := by
            simp only [image_free, List.all_eq_true, List.mem_attach,
              forall_const, Subtype.forall] at hfree
            exact hfree
          rw [← h.2, load_layers_image_free_aux env L ls rs hall hl]
  | .other name, n, l', _, h => by
      unfold load_layer at h
      cases h

theorem load_layers_image_free_aux (env : ImageEnv) (L : MapLoader) :
    ∀ (ls : List Layer) (rs : List (PNode × Layer)),
      (∀ x ∈ ls, image_free x = true) → load_layers env L ls = .ok rs →
      rs.map Prod.snd = ls
  | [], rs, _, h => by
      unfold load_layers at h
      simp only [Except.ok.injEq] at h
      rw [← h]
      rfl
  | l :: ls, rs, hall, h => by
      unfold load_layers at h
      cases hl : load_layer env L l with
      | error e => rw [hl] at h; cases h
      | ok r =>
          rw [hl] at h
          cases hls : load_layers env L ls with
          | error e => rw [hls] at h; cases h
          | ok rs' =>
              rw [hls] at h
              simp only [bind, Except.bind, Except.ok.injEq] at h
              rw [← h]
              simp only [List.map_cons]
              rw [load_layer_image_free_aux env L l r.1 r.2
                  (hall l (by simp)) (by rw [hl]),
                load_layers_image_free_aux env L ls rs'
                  (fun x hx => hall x (by simp [hx])) hls]

end

/-- C6, amended: the loader leaves the parsed document unchanged except
for image layers, whose `image` field `load_layer` rewrites to the path
resolved against the map file's directory; composing any layer that
contains no image layer (directly or nested in groups) returns it
unchanged. -/
theorem C6_amended_image_free_layers_unchanged (env : ImageEnv)
    (L : MapLoader) (l : Layer) (n : PNode) (l' : Layer)
    (hfree : image_free l = true) (h : load_layer env L l = .ok (n, l')) :
    l' = l :=
  load_layer_image_free_aux env L l n l' hfree h

/-- Witness for C6's amended theorem: an empty group layer survives
composition unchanged. -/
theorem C6_witness : (Layer.group "g" none) = Layer.group "g" none :=
  C6_amended_image_free_layers_unchanged test_env two_tileset_loader
    (.group "g" none) (PNode.fresh "g") (.group "g" none)
    (by simp [image_free]) rfl

end TmxLoader
